import Mathlib

/-!
Verification of the timer-based sheet synchronization jobs
(`identity-foundation-sync`, `identity-insulation-sync`,
`identity-ground-improvement-sync`, `project-missing-check`, `status-update`).

Shallow embedding conventions:
* Sheet cell values are modelled as `Option String` (`none` = Python `None`;
  the sheets' scalar values relevant to these jobs are strings or null).
* A cell dictionary built by `cells_array_to_dict` / the per-row dict
  comprehensions is modelled by `cellsGet` (last occurrence of a column id
  wins, matching Python dict insertion overwrite).
* Python exceptions are modelled with `Except`; `normalize_tank` can raise
  `OverflowError` (uncaught, since the source catches only `ValueError`).
* Python `float(s)` is modelled exactly: the decimal literal is parsed to a
  rational and then rounded to the nearest IEEE-754 binary64 value
  (ties to even, overflow to infinity), so truncation behaves as in CPython
  for every ASCII input string.
* String helpers `.strip()` / `.lower()` are modelled by `pyStrip` /
  `pyLower` (the ASCII fragment, which covers the values these jobs
  handle).
-/

set_option maxRecDepth 100000

/-! ## Python string helpers -/

/-- ASCII whitespace stripped by Python `str.strip()`. -/
def isPyWs (c : Char) : Bool :=
  c = ' ' ∨ c = '\t' ∨ c = '\n' ∨ c = '\r' ∨ c = '\x0b' ∨ c = '\x0c'

/-- Drop leading whitespace characters. -/
def dropWs : List Char → List Char
  | [] => []
  | c :: cs => if isPyWs c then dropWs cs else c :: cs

/-- Python `str.strip()` (ASCII whitespace). -/
def pyStrip (s : String) : String :=
  ⟨(dropWs (dropWs s.data).reverse).reverse⟩

/-- Python `str.lower()` on an ASCII character. -/
def pyCharLower (c : Char) : Char :=
  if 'A' ≤ c ∧ c ≤ 'Z' then Char.ofNat (c.toNat + 32) else c

/-- Python `str.lower()` (ASCII fragment). -/
def pyLower (s : String) : String :=
  ⟨s.data.map pyCharLower⟩

/-! ## Python-style values, cells and rows -/

abbrev ColumnId := Nat

/-- A cell of a fetched sheet row: `{columnId, value}` with the value a
string or null. -/
structure Cell where
  columnId : ColumnId
  value : Option String
deriving DecidableEq, Repr

/-- A fetched sheet row: `{id, cells}`. -/
structure Row where
  id : Nat
  cells : List Cell
deriving DecidableEq, Repr

/-- A scalar appearing in a write payload (Python str, bool, or None). -/
inductive PyVal where
  | pstr (s : String)
  | pbool (b : Bool)
  | pnull
deriving DecidableEq, Repr

/-- A cell of a write payload: `{columnId, value}`. -/
structure PCell where
  columnId : ColumnId
  value : PyVal
deriving DecidableEq, Repr

/-- An insert operation `{toBottom, cells}` queued for a bulk POST. -/
structure InsertOp where
  toBottom : Bool
  cells : List PCell
deriving DecidableEq, Repr

/-- An update operation `{id, cells}` queued for a bulk PUT. -/
structure UpdateOp where
  id : Nat
  cells : List PCell
deriving DecidableEq, Repr

/-- Dictionary lookup on a cell list: `cells_dict.get(col)`.
Outer `none` = column absent; `some v` = column present with value `v`.
Python dict comprehension lets a later duplicate overwrite an earlier one,
hence the reverse search. -/
def cellsGet (cells : List Cell) (col : ColumnId) : Option (Option String) :=
  (cells.reverse.find? (fun c => c.columnId == col)).map Cell.value

/-- Python `COL in cells_dict` membership. -/
def hasCol (cells : List Cell) (col : ColumnId) : Bool :=
  (cells.find? (fun c => c.columnId == col)).isSome

/-- Python `(cells.get(col) or {}).get("value")` (resp. `cells.get(col)` on a
columnId-to-value dict): absent column and null value both become `none`. -/
def flatGet (cells : List Cell) (col : ColumnId) : Option String :=
  (cellsGet cells col).join

/-- Python `str(x or "")` where `x` is an optional lookup of an optional
string: any falsy outcome (absent, null, empty) collapses to `""`. -/
def pyStrOr : Option (Option String) → String
  | some (some s) => s
  | _ => ""

/-- Python `str(cells.get(col) or "").strip()`. -/
def coerceStrip (cells : List Cell) (col : ColumnId) : String :=
  pyStrip (pyStrOr (cellsGet cells col))

/-- Python `!=` between a `str` and a value that is a string or `None`
(`None` compares unequal to every string). -/
def pyNeSO (s : String) (o : Option String) : Bool :=
  match o with
  | none => true
  | some t => s != t

/-- Conversion of a sheet value into a write-payload scalar. -/
def pyValOf : Option String → PyVal
  | some s => .pstr s
  | none => .pnull

/-! ## Python `float()` semantics

`float(s)` for an ASCII string: optional surrounding whitespace, optional
sign, then either a case-insensitive `inf`/`infinity`/`nan` word or a decimal
literal (digits with single underscores between digits, optional fraction,
optional exponent).  The exact rational value of the literal is rounded to
the nearest binary64 (ties to even); magnitudes reaching `2^1024` after
rounding become infinity. -/

/-- Exact rational arithmetic used to model binary64 values.  `⟨n, d⟩`
represents `n / d`; every construction below keeps the denominator
positive, and no normalization is performed (only sums, products,
comparisons and floors are needed). -/
structure PRat where
  num : ℤ
  den : ℕ
deriving DecidableEq, Repr

/-- Embed an integer. -/
def PRat.ofInt (n : ℤ) : PRat := ⟨n, 1⟩

/-- Product of exact rationals. -/
def PRat.mul (a b : PRat) : PRat := ⟨a.num * b.num, a.den * b.den⟩

/-- Sum of exact rationals. -/
def PRat.add (a b : PRat) : PRat := ⟨a.num * b.den + b.num * a.den, a.den * b.den⟩

/-- Negation of an exact rational. -/
def PRat.neg (a : PRat) : PRat := ⟨-a.num, a.den⟩

/-- Comparison by cross-multiplication (denominators are positive). -/
def PRat.le (a b : PRat) : Bool := a.num * b.den ≤ b.num * a.den

/-- Strict comparison by cross-multiplication. -/
def PRat.lt (a b : PRat) : Bool := a.num * b.den < b.num * a.den

/-- Floor of an exact rational (floor division by the positive
denominator). -/
def PRat.floor (a : PRat) : ℤ := Int.fdiv a.num a.den

/-- The result of a successful Python `float()` call. -/
inductive PyFloat where
  | finite (q : PRat)
  | inf
  | negInf
  | nan
deriving DecidableEq, Repr

/-- Greedily consume a Python digit run `digit (('_')? digit)*`; returns the
digits (underscores removed) and the unconsumed rest.  An underscore not
followed by a digit is left unconsumed (the whole parse then fails on the
leftover). -/
def grabDigits : List Char → List Char × List Char
  | [] => ([], [])
  | c :: '_' :: cs2 =>
    if c.isDigit then
      match grabDigits cs2 with
      | ([], _) => ([c], '_' :: cs2)
      | (d :: ds, r) => (c :: d :: ds, r)
    else ([], c :: '_' :: cs2)
  | c :: cs =>
    if c.isDigit then
      let (ds, r) := grabDigits cs
      (c :: ds, r)
    else ([], c :: cs)

/-- Numeric value of a digit run. -/
def digitsToNat (ds : List Char) : Nat :=
  ds.foldl (fun n c => 10 * n + (c.toNat - '0'.toNat)) 0

/-- Ten to an integer power, as an exact rational. -/
def pow10Q (n : ℤ) : PRat :=
  match n with
  | .ofNat k => ⟨((10 ^ k : ℕ) : ℤ), 1⟩
  | .negSucc k => ⟨1, 10 ^ (k + 1)⟩

/-- Two to an integer power, as an exact rational. -/
def pow2Q (n : ℤ) : PRat :=
  match n with
  | .ofNat k => ⟨((2 ^ k : ℕ) : ℤ), 1⟩
  | .negSucc k => ⟨1, 2 ^ (k + 1)⟩

/-- Parse an unsigned Python float literal
`(digits ('.' digits?)? | '.' digits) (('e'|'E') sign? digits)?`,
requiring the entire input to be consumed.  Returns its exact rational
value. -/
def parseNumber (cs : List Char) : Option PRat :=
  let (ip, r1) := grabDigits cs
  let fracState : Option (List Char) × List Char :=
    match r1 with
    | '.' :: rest =>
      let (ds, r) := grabDigits rest
      (some ds, r)
    | _ => (none, r1)
  let fp := fracState.1
  let r2 := fracState.2
  if ip = [] ∧ (fp = none ∨ fp = some []) then none
  else
    let fds := fp.getD []
    let mant : PRat :=
      ⟨((digitsToNat ip * 10 ^ fds.length + digitsToNat fds : ℕ) : ℤ), 10 ^ fds.length⟩
    match r2 with
    | [] => some mant
    | 'e' :: rest =>
      let signState : Bool × List Char :=
        match rest with
        | '+' :: t => (false, t)
        | '-' :: t => (true, t)
        | t => (false, t)
      let (eds, r4) := grabDigits signState.2
      if eds = [] ∨ r4 ≠ [] then none
      else
        let e : ℤ := if signState.1 then -(digitsToNat eds : ℤ) else (digitsToNat eds : ℤ)
        some (mant.mul (pow10Q e))
    | 'E' :: rest =>
      let signState : Bool × List Char :=
        match rest with
        | '+' :: t => (false, t)
        | '-' :: t => (true, t)
        | t => (false, t)
      let (eds, r4) := grabDigits signState.2
      if eds = [] ∨ r4 ≠ [] then none
      else
        let e : ℤ := if signState.1 then -(digitsToNat eds : ℤ) else (digitsToNat eds : ℤ)
        some (mant.mul (pow10Q e))
    | _ => none

/-- Round an exact rational to an integer, ties to even. -/
def roundHalfEven (q : PRat) : ℤ :=
  let f := q.floor
  let r := q.add (PRat.neg (PRat.ofInt f))
  if r.lt ⟨1, 2⟩ then f
  else if PRat.lt ⟨1, 2⟩ r then f + 1
  else if f % 2 = 0 then f else f + 1

/-- Binary search for the slot `k` (with exponent `k - 1022`) such that
`2 ^ (k - 1022) ≤ q < 2 ^ (k - 1021)`, given
`2 ^ (lo - 1022) ≤ q < 2 ^ (hi - 1021)`.  Twelve fuel steps cover the whole
binary64 exponent range. -/
def findExpK : Nat → Nat → Nat → PRat → Nat
  | 0, lo, _, _ => lo
  | fuel + 1, lo, hi, q =>
    if hi ≤ lo then lo
    else
      let mid := (lo + hi + 1) / 2
      if (pow2Q ((mid : ℤ) - 1022)).le q then findExpK fuel mid hi q
      else findExpK fuel lo (mid - 1) q

/-- Round a positive exact rational to the nearest binary64 value (ties to
even, subnormal range with fixed scale `2 ^ 1074`, overflow to infinity). -/
def roundB64Pos (q : PRat) : PyFloat :=
  if (pow2Q 1024).le q then .inf
  else if q.lt (pow2Q (-1022)) then
    .finite ((PRat.ofInt (roundHalfEven (q.mul (pow2Q 1074)))).mul (pow2Q (-1074)))
  else
    let e : ℤ := (findExpK 12 0 2045 q : ℤ) - 1022
    let scale : ℤ := 52 - e
    let n := roundHalfEven (q.mul (pow2Q scale))
    let v : PRat := (PRat.ofInt n).mul (pow2Q (-scale))
    if (pow2Q 1024).le v then .inf else .finite v

/-- Round any exact rational to the nearest binary64 value. -/
def roundB64 (q : PRat) : PyFloat :=
  if q.num = 0 then .finite (PRat.ofInt 0)
  else if 0 < q.num then roundB64Pos q
  else
    match roundB64Pos q.neg with
    | .inf => .negInf
    | .negInf => .inf
    | .nan => .nan
    | .finite v => .finite v.neg

/-- Python `float(s)`: `none` models a raised `ValueError`. -/
def pyFloat (s : String) : Option PyFloat :=
  let body0 := (pyStrip s).data
  let signed : Bool × List Char :=
    match body0 with
    | '+' :: r => (false, r)
    | '-' :: r => (true, r)
    | r => (false, r)
  let neg := signed.1
  let body := signed.2
  let low := body.map pyCharLower
  if low = "inf".data ∨ low = "infinity".data then
    some (if neg then .negInf else .inf)
  else if low = "nan".data then some .nan
  else
    match parseNumber body with
    | none => none
    | some q => some (roundB64 (if neg then q.neg else q))

/-- Truncation toward zero, Python `int(float)` (positive denominator, so
the sign of the value is the sign of the numerator). -/
def ratTruncToInt (q : PRat) : ℤ :=
  if 0 ≤ q.num then q.floor else -q.neg.floor

/-- The exception escaping `normalize_tank`: `int()` of an infinite float
raises `OverflowError`, which the source's `except ValueError` does not
catch. -/
inductive PyErr where
  | overflowError
deriving DecidableEq, Repr

instance {ε α : Type} [DecidableEq ε] [DecidableEq α] : DecidableEq (Except ε α) :=
  fun x y =>
    match x, y with
    | .ok a, .ok b =>
      if h : a = b then .isTrue (by rw [h]) else .isFalse (by intro hh; cases hh; exact h rfl)
    | .error a, .error b =>
      if h : a = b then .isTrue (by rw [h]) else .isFalse (by intro hh; cases hh; exact h rfl)
    | .ok _, .error _ => .isFalse (by intro hh; cases hh)
    | .error _, .ok _ => .isFalse (by intro hh; cases hh)

/-- The `normalize_tank` helper of `project-missing-check` and
`status-update` (identical in both files):

* `None` or blank input returns `""`;
* otherwise `str(int(float(str(value).strip())))` is attempted;
* a `ValueError` (unparseable string, or `int()` of NaN) falls back to
  `str(value).strip().lower()`;
* `int()` of an infinite float raises an uncaught `OverflowError`. -/
def normalize_tank (value : Option String) : Except PyErr String :=
  match value with
  | none => .ok ""
  | some s =>
    let t := pyStrip s
    if t = "" then .ok ""
    else
      match pyFloat t with
      | none => .ok (pyLower t)
      | some (.finite q) => .ok (toString (ratTruncToInt q))
      | some .nan => .ok (pyLower t)
      | some .inf => .error .overflowError
      | some .negInf => .error .overflowError

/-- The `extract_key` helper of `project-missing-check` and `status-update`:
normalized composite key `tank|city|state`, or `""` when any component is
empty. -/
def extract_key (row : Row) (tankCol cityCol stateCol : ColumnId) :
    Except PyErr String := do
  let cells := row.cells
  let tank ← normalize_tank (flatGet cells tankCol)
  let city := pyLower (pyStrip (pyStrOr (cellsGet cells cityCol)))
  let state := pyLower (pyStrip (pyStrOr (cellsGet cells stateCol)))
  if tank = "" ∨ city = "" ∨ state = "" then pure ""
  else pure (tank ++ "|" ++ city ++ "|" ++ state)

/-! ## Batch chunking and bulk writes

`chunked` mirrors `for i in range(0, len(seq), size): yield seq[i:i+size]`
(defined with fuel so that it computes by kernel reduction; with a positive
size the fuel `seq.length` is never exhausted). -/

def chunkedGo (size : Nat) : Nat → List α → List (List α)
  | 0, _ => []
  | _, [] => []
  | fuel + 1, seq => seq.take size :: chunkedGo size fuel (seq.drop size)

/-- The `chunked` helper shared by the sync jobs (and inlined in the
`bulk_update` helpers of `project-missing-check` and `status-update`). -/
def chunked (seq : List α) (size : Nat) : List (List α) :=
  chunkedGo size seq.length seq

/-- Result of a modelled bulk write: the success count returned by
`bulk_update`, the sizes of the HTTP PUT calls issued (in order), and the
`time.sleep` delays performed (in order, seconds). -/
structure BURes where
  total : Nat
  callSizes : List Nat
  sleeps : List Nat
deriving DecidableEq, Repr

/-- The two-attempt loop of `project-missing-check.bulk_update` for one
chunk (`for attempt in range(2)` unrolled): `resp i` is the HTTP status of
the i-th PUT call of the whole bulk update, `base` the index of this
chunk's first call.  On 429 it sleeps 3s and retries; `raise_for_status`
raises (`Except.error status`) on any other 4xx/5xx; note that a second
429 exhausts the loop without raising. -/
def mc_chunk_attempts (resp : Nat → Nat) (base : Nat) : Except Nat (Nat × List Nat) :=
  let s0 := resp base
  if s0 = 429 then
    let s1 := resp (base + 1)
    if s1 = 429 then .ok (2, [3, 3])
    else if 400 ≤ s1 ∧ s1 < 600 then .error s1
    else .ok (2, [3])
  else if 400 ≤ s0 ∧ s0 < 600 then .error s0
  else .ok (1, [])

/-- Chunk loop of `project-missing-check.bulk_update`: `total += len(chunk)`
runs after the attempt loop regardless of how the loop ended. -/
def mc_bulk_update_go (resp : Nat → Nat) (dryRun : Bool) :
    List (List α) → Nat → BURes → Except Nat BURes
  | [], _, acc => .ok acc
  | chunk :: rest, base, acc =>
    if dryRun then
      mc_bulk_update_go resp dryRun rest base
        { acc with total := acc.total + chunk.length }
    else
      match mc_chunk_attempts resp base with
      | .error s => .error s
      | .ok (calls, sl) =>
        mc_bulk_update_go resp dryRun rest (base + calls)
          { total := acc.total + chunk.length
            callSizes := acc.callSizes ++ List.replicate calls chunk.length
            sleeps := acc.sleeps ++ sl }

/-- The `bulk_update` helper of `project-missing-check`: chunks of at most
500 rows; in dry-run mode no PUT is issued but the chunk is still counted. -/
def mc_bulk_update (dryRun : Bool) (updates : List α) (resp : Nat → Nat) :
    Except Nat BURes :=
  mc_bulk_update_go resp dryRun (chunked updates 500) 0 ⟨0, [], []⟩

/-- The attempt loop of `status-update.bulk_update` for one chunk: identical
to the `project-missing-check` loop except that `raise_for_status` is
wrapped in try/except, so a non-429 error is logged and the loop breaks
without raising. -/
def su_chunk_attempts (resp : Nat → Nat) (base : Nat) : Nat × List Nat :=
  let s0 := resp base
  if s0 = 429 then
    let s1 := resp (base + 1)
    if s1 = 429 then (2, [3, 3]) else (2, [3])
  else (1, [])

/-- Chunk loop of `status-update.bulk_update`: never raises; every chunk is
counted. -/
def su_bulk_update_go (resp : Nat → Nat) (dryRun : Bool) :
    List (List α) → Nat → BURes → BURes
  | [], _, acc => acc
  | chunk :: rest, base, acc =>
    if dryRun then
      su_bulk_update_go resp dryRun rest base
        { acc with total := acc.total + chunk.length }
    else
      let cs := su_chunk_attempts resp base
      su_bulk_update_go resp dryRun rest (base + cs.1)
        { total := acc.total + chunk.length
          callSizes := acc.callSizes ++ List.replicate cs.1 chunk.length
          sleeps := acc.sleeps ++ cs.2 }

/-- The `bulk_update` helper of `status-update`. -/
def su_bulk_update (dryRun : Bool) (updates : List α) (resp : Nat → Nat) : BURes :=
  su_bulk_update_go resp dryRun (chunked updates 500) 0 ⟨0, [], []⟩

/-! ## The `project-missing-check` job -/

namespace MissingCheck

/-- Destination-sheet column mapping `{tank, city, state, missing}` from
`DEST_SHEETS_JSON`. -/
structure MCCols where
  tank : ColumnId
  city : ColumnId
  state : ColumnId
  missing : ColumnId
deriving DecidableEq, Repr

def SRC_COL_TANK : ColumnId := 3633417232797572
def SRC_COL_CITY : ColumnId := 818667465691012
def SRC_COL_STATE : ColumnId := 5322267093061508

/-- One iteration of the source pass of `main`: add the row's key to the
set when it is valid (`if key: src_keys.add(key)`). -/
def mc_src_step (acc : List String) (r : Row) : Except PyErr (List String) := do
  let k ← extract_key r SRC_COL_TANK SRC_COL_CITY SRC_COL_STATE
  if k = "" then pure acc else pure (acc ++ [k])

/-- Source pass of `main`: collect the non-empty normalized keys.  The
Python set is modelled as the list of added keys (only membership is
consumed). -/
def mc_src_keys (rows : List Row) : Except PyErr (List String) :=
  rows.foldlM mc_src_step []

/-- Destination pass of `main` for one row: skip rows with an invalid key;
rows whose key is absent from the source set get a `missing = True` update. -/
def mc_plan_row (srcKeys : List String) (cols : MCCols) (row : Row) :
    Except PyErr (List UpdateOp) := do
  let key ← extract_key row cols.tank cols.city cols.state
  if key = "" then pure []
  else if key ∈ srcKeys then pure []
  else pure [⟨row.id, [⟨cols.missing, .pbool true⟩]⟩]

end MissingCheck

/-! ## The `status-update` job -/

namespace StatusUpdate

/-- Destination-sheet column mapping `{tank, city, state, status}`. -/
structure SUCols where
  tank : ColumnId
  city : ColumnId
  state : ColumnId
  status : ColumnId
deriving DecidableEq, Repr

def SRC_COL_TANK : ColumnId := 3633417232797572
def SRC_COL_CITY : ColumnId := 818667465691012
def SRC_COL_STATE : ColumnId := 5322267093061508
def SRC_COL_STATUS : ColumnId := 1917042186473348

/-- Python `cells.get(SRC_COL_STATUS, "")`: absent column defaults to the
string `""`, a present null cell stays `None`. -/
def getStatusDefault (cells : List Cell) : Option String :=
  match cellsGet cells SRC_COL_STATUS with
  | none => some ""
  | some v => v

/-- Association-list update modelling `src_map[key] = value`. -/
def assocSet (m : List (String × Option String)) (k : String) (v : Option String) :
    List (String × Option String) :=
  if (m.find? (fun p => p.1 == k)).isSome then
    m.map (fun p => if p.1 == k then (k, v) else p)
  else m ++ [(k, v)]

/-- Association-list lookup modelling `src_map.get(key)`. -/
def assocGet (m : List (String × Option String)) (k : String) :
    Option (Option String) :=
  (m.find? (fun p => p.1 == k)).map Prod.snd

/-- One iteration of the source pass of `main`: store the row's status
value under its key when the key is valid. -/
def su_src_step (acc : List (String × Option String)) (r : Row) :
    Except PyErr (List (String × Option String)) := do
  let k ← extract_key r SRC_COL_TANK SRC_COL_CITY SRC_COL_STATE
  if k = "" then pure acc else pure (assocSet acc k (getStatusDefault r.cells))

/-- Source pass of `main`: build `key -> status value` for every row with a
valid key. -/
def su_src_map (rows : List Row) : Except PyErr (List (String × Option String)) :=
  rows.foldlM su_src_step []

/-- Normalized tank of a destination row. -/
def su_tank (cols : SUCols) (row : Row) : Except PyErr String :=
  normalize_tank (flatGet row.cells cols.tank)

/-- Stripped (not lower-cased) city of a destination row. -/
def su_city (cols : SUCols) (row : Row) : String :=
  pyStrip (pyStrOr (cellsGet row.cells cols.city))

/-- Stripped (not lower-cased) state of a destination row. -/
def su_state (cols : SUCols) (row : Row) : String :=
  pyStrip (pyStrOr (cellsGet row.cells cols.state))

/-- Python `(cells.get(status) or "").strip() if cells.get(status) else ""`
(both branches collapse falsy values to `""` and strip otherwise). -/
def su_dest_status (cols : SUCols) (row : Row) : String :=
  pyStrip (pyStrOr (cellsGet row.cells cols.status))

/-- Destination pass of `main` for one row.  Note: the composite key is
rebuilt inline (`f"{tank}|{city.lower()}|{state.lower()}"`) without the
empty-component guard of `extract_key`; the only skips are
"both statuses blank" and "tank, city and state all empty". -/
def su_plan_row (srcMap : List (String × Option String)) (cols : SUCols)
    (row : Row) : Except PyErr (Option UpdateOp) := do
  let tank ← su_tank cols row
  let city := su_city cols row
  let state := su_state cols row
  let destStatus := su_dest_status cols row
  let key := tank ++ "|" ++ pyLower city ++ "|" ++ pyLower state
  let srcStatus := pyStrip (pyStrOr (assocGet srcMap key))
  if srcStatus = "" ∧ destStatus = "" then pure none
  else if key = "" ∨ (tank = "" ∧ city = "" ∧ state = "") then pure none
  else if srcStatus ≠ destStatus then
    pure (some ⟨row.id, [⟨cols.status, .pstr srcStatus⟩]⟩)
  else pure none

end StatusUpdate

/-! ## The `identity-foundation-sync` job -/

namespace Foundation

def SRC_TANK_COL : ColumnId := 3633417232797572
def SRC_ROW_COL : ColumnId := 537192488980356
def SRC_ORDER_COL : ColumnId := 8699966813589380
def SRC_FRONTEND_COL : ColumnId := 5744479558127492

def DEST_TANK_COL : ColumnId := 492931382988676
def DEST_ROW_COL : ColumnId := 5102084126625668

def ROW_VALUE_PROJECT : String := "Project"
def ROW_VALUE_FRONTEND : String := "Front-End - Site Work"
def ORDER_VALUE_PROJECT : String := "0000 - Project"

/-- `IDENTITY_FOUNDATION_COLUMN_MAP`, in source insertion order. -/
def COLUMN_MAP : List (ColumnId × ColumnId) :=
  [(3633417232797572, 492931382988676),
   (8137016860168068, 4996531010359172),
   (818667465691012, 2744731196673924),
   (5322267093061508, 7248330824044420),
   (2155673605066628, 6122430917201796),
   (6659273232437124, 3870631103516548),
   (4618579651284868, 5665034080046980),
   (5885217046482820, 3413234266361732),
   (6448166999904132, 8374230730887044),
   (3844523465330564, 1055881336409988),
   (8348123092701060, 5559480963780484),
   (1029773698224004, 3307681150095236),
   (5533373325594500, 7811280777465732),
   (4407473418751876, 6790933986889604),
   (8911073046122372, 1161434452676484),
   (1381617419112324, 7916833893732228)]

/-- Per-row local `src_row_val`. -/
def src_row_val (r : Row) : String := coerceStrip r.cells SRC_ROW_COL

/-- Per-row local `src_order_val`. -/
def src_order_val (r : Row) : String := coerceStrip r.cells SRC_ORDER_COL

/-- Per-row local `src_tank_val` (raw value). -/
def src_tank_val (r : Row) : Option String := flatGet r.cells SRC_TANK_COL

/-- Per-row local `src_frontend_val`. -/
def src_frontend_val (r : Row) : String := coerceStrip r.cells SRC_FRONTEND_COL

/-- The `normalize` helper of this job restricted to the modelled value
space (null becomes `""`, strings are stripped). -/
def normalize (val : Option String) : String :=
  match val with
  | none => ""
  | some s => pyStrip s

/-- The `find_column_diffs` helper.  The source formats each differing pair
into a human-readable log string; only the list of differing pairs (hence
its length and emptiness) is modelled. -/
def find_column_diffs (srcCells destCells : List Cell) : List (ColumnId × ColumnId) :=
  COLUMN_MAP.filter
    (fun p => normalize (flatGet srcCells p.1) != normalize (flatGet destCells p.2))

/-- The mapped-cell payload built before the insert/update branch: one cell
per mapped column present in the source row, then the forced Row literal. -/
def mapped_cells (r : Row) : List PCell :=
  (COLUMN_MAP.filter (fun p => hasCol r.cells p.1)).map
    (fun p => (⟨p.2, pyValOf (flatGet r.cells p.1)⟩ : PCell))
  ++ [⟨DEST_ROW_COL, .pstr ROW_VALUE_FRONTEND⟩]

/-- The full insert payload (the insert branch appends the Primary, Order
and Row literals after `mapped_cells`, so the Row cell appears twice). -/
def insert_cells (r : Row) : List PCell :=
  mapped_cells r ++
    [⟨1618831289831300, .pstr "Front-End - Site Work"⟩,
     ⟨598484499255172, .pstr "00002 - Front-End - Site Work"⟩,
     ⟨5102084126625668, .pstr "Front-End - Site Work"⟩]

/-- The eligibility-and-tank prefix of the `build_operations` loop body:
`none` when the row is skipped by `continue`.

The guard transcribes the Python chained comparison
`if src_frontend_val != src_row_val != ROW_VALUE_PROJECT or ...`,
which means `(frontend != row) and (row != "Project")` — so a row whose
row-type merely equals its frontend value also passes. -/
def tank_key (r : Row) : Option String :=
  if (src_frontend_val r ≠ src_row_val r ∧ src_row_val r ≠ ROW_VALUE_PROJECT)
      ∨ src_order_val r ≠ ORDER_VALUE_PROJECT then none
  else
    match src_tank_val r with
    | none => none
    | some s => if s = "" then none else some (pyStrip s)

/-- One iteration of the `build_operations` loop: the inserts and updates
this source row appends.  The destination index maps a tank key to at most
one row (`index_dest_by_tank_and_frontend` keeps the last match). -/
def planRow (destIndex : String → Option Row) (r : Row) :
    List InsertOp × List UpdateOp :=
  match tank_key r with
  | none => ([], [])
  | some k =>
    match destIndex k with
    | none =>
      if src_frontend_val r = "Subcontractor" ∨ src_frontend_val r = "Phoenix" then
        ([⟨true, insert_cells r⟩], [])
      else ([], [])
    | some d =>
      if (find_column_diffs r.cells d.cells).isEmpty then ([], [])
      else ([], [⟨d.id, mapped_cells r⟩])

/-- The `build_operations` function: accumulate inserts and updates over the
source rows (each row appends to exactly one of the two lists, so the pair
of concatenations equals the Python accumulation). -/
def build_operations (sourceRows : List Row) (destIndex : String → Option Row) :
    List InsertOp × List UpdateOp :=
  (((sourceRows.map (planRow destIndex)).map Prod.fst).join,
   ((sourceRows.map (planRow destIndex)).map Prod.snd).join)

/-- Write phase of `main`: the POST and PUT chunk payloads issued, with the
planned counts logged identically in both modes (`bulk_insert` and
`bulk_update` return without any call on an empty list). -/
def apply_phase (dryRun : Bool) (inserts : List InsertOp) (updates : List UpdateOp) :
    (Nat × Nat) × (List (List InsertOp) × List (List UpdateOp)) :=
  ((inserts.length, updates.length),
   if dryRun then ([], [])
   else
     (if inserts.isEmpty then [] else chunked inserts 500,
      if updates.isEmpty then [] else chunked updates 500))

end Foundation

/-! ## The `identity-insulation-sync` job -/

namespace Insulation

def SRC_TANK_COL : ColumnId := 3633417232797572
def SRC_ROW_COL : ColumnId := 537192488980356
def SRC_ORDER_COL : ColumnId := 8699966813589380
def SRC_INSULATION_COL : ColumnId := 959404954046340
def SRC_NTP_DATE_COL : ColumnId := 3844523465330564
def SRC_CONTRACT_DAYS_COL : ColumnId := 8348123092701060
def SRC_NTP_COMPLETION_DATE_COL : ColumnId := 1029773698224004

def DEST_TANK_COL : ColumnId := 7584488200294276
def DEST_ROW_COL : ColumnId := 1136952015015812
def DEST_NTP_DATE_COL : ColumnId := 1673513689370500
def DEST_CONTRACT_DAYS_COL : ColumnId := 6177113316740996
def DEST_NTP_COMPLETION_DATE_COL : ColumnId := 3925313503055748
def DEST_INSULATION_COL : ColumnId := 3388751828701060
def DEST_PRIMERY_COL : ColumnId := 8710388107136900
def DEST_ORDER_COL : ColumnId := 6766451549228932
def DEST_ORDER_VAL : String := "0008 - Insulation"

def ROW_VALUE_PROJECT : String := "Project"
def ROW_VALUE_INSULATION : String := "Insulation"
def ORDER_VALUE_PROJECT : String := "0000 - Project"

/-- `SRC_DEST_COLUMN_MAP`, in source insertion order. -/
def COLUMN_MAP : List (ColumnId × ColumnId) :=
  [(3633417232797572, 7584488200294276),
   (8137016860168068, 1954988666081156),
   (818667465691012, 6458588293451652),
   (5322267093061508, 4206788479766404),
   (2155673605066628, 5051213409898372),
   (6659273232437124, 2799413596213124),
   (4618579651284868, 547613782527876),
   (5885217046482820, 11052108173188),
   (6448166999904132, 7303013223583620),
   (3844523465330564, 1673513689370500),
   (8348123092701060, 6177113316740996),
   (1029773698224004, 3925313503055748),
   (5533373325594500, 8428913130426244),
   (4407473418751876, 4488263456477060),
   (8911073046122372, 8991863083847556),
   (1381617419112324, 4514651735543684)]

def src_row_val (r : Row) : String := coerceStrip r.cells SRC_ROW_COL

def src_order_val (r : Row) : String := coerceStrip r.cells SRC_ORDER_COL

def src_tank_val (r : Row) : Option String := flatGet r.cells SRC_TANK_COL

def src_insulation_val (r : Row) : String := coerceStrip r.cells SRC_INSULATION_COL

def src_ntp_date_val (r : Row) : Option String := flatGet r.cells SRC_NTP_DATE_COL

def src_contract_days_val (r : Row) : Option String :=
  flatGet r.cells SRC_CONTRACT_DAYS_COL

def src_ntp_completion_date_val (r : Row) : Option String :=
  flatGet r.cells SRC_NTP_COMPLETION_DATE_COL

/-- Eligibility-and-tank prefix of the loop body (here the guard really is
the conjunction `row == "Project" and order == "0000 - Project"`). -/
def tank_key (r : Row) : Option String :=
  if src_row_val r ≠ ROW_VALUE_PROJECT ∨ src_order_val r ≠ ORDER_VALUE_PROJECT then none
  else
    match src_tank_val r with
    | none => none
    | some s => if s = "" then none else some (pyStrip s)

/-- Selection of `dest_row` among the indexed candidates: first row whose
raw Row-column value equals the `"Insulation"` literal. -/
def find_dest (candidates : List Row) : Option Row :=
  candidates.find? (fun row => flatGet row.cells DEST_ROW_COL == some ROW_VALUE_INSULATION)

/-- The insert payload: copies of every mapped column present in the source
row, then the Primary/Order/Row literals and the insulation value. -/
def insert_cells (r : Row) : List PCell :=
  (COLUMN_MAP.filter (fun p => hasCol r.cells p.1)).map
    (fun p => (⟨p.2, pyValOf (flatGet r.cells p.1)⟩ : PCell))
  ++ [⟨DEST_PRIMERY_COL, .pstr ROW_VALUE_INSULATION⟩,
      ⟨DEST_ORDER_COL, .pstr DEST_ORDER_VAL⟩,
      ⟨DEST_ROW_COL, .pstr ROW_VALUE_INSULATION⟩,
      ⟨DEST_INSULATION_COL, .pstr (src_insulation_val r)⟩]

/-- The update payload: the insulation cell when the (stripped string)
source value differs from the raw destination value, then the NTP-date,
contract-days and NTP-completion-date triple when the raw NTP dates
differ. -/
def update_cells (r d : Row) : List PCell :=
  (if pyNeSO (src_insulation_val r) (flatGet d.cells DEST_INSULATION_COL) then
    [⟨DEST_INSULATION_COL, .pstr (src_insulation_val r)⟩]
  else []) ++
  (if src_ntp_date_val r != flatGet d.cells DEST_NTP_DATE_COL then
    [⟨DEST_NTP_DATE_COL, pyValOf (src_ntp_date_val r)⟩,
     ⟨DEST_CONTRACT_DAYS_COL, pyValOf (src_contract_days_val r)⟩,
     ⟨DEST_NTP_COMPLETION_DATE_COL, pyValOf (src_ntp_completion_date_val r)⟩]
  else [])

/-- One iteration of the `build_operations` loop.  The destination index
maps a tank key to the list of rows kept by `index_dest_by_tank_and_row`
(absent key = empty list, mirroring `dest_index.get(tank_key, [])`). -/
def planRow (destIndex : String → List Row) (r : Row) :
    List InsertOp × List UpdateOp :=
  match tank_key r with
  | none => ([], [])
  | some k =>
    match find_dest (destIndex k) with
    | none =>
      if src_insulation_val r = "Phoenix" ∨ src_insulation_val r = "Subcontractor" then
        ([⟨true, insert_cells r⟩], [])
      else ([], [])
    | some d =>
      if (update_cells r d).isEmpty then ([], [])
      else ([], [⟨d.id, update_cells r d⟩])

/-- The `build_operations` function of this job. -/
def build_operations (sourceRows : List Row) (destIndex : String → List Row) :
    List InsertOp × List UpdateOp :=
  (((sourceRows.map (planRow destIndex)).map Prod.fst).join,
   ((sourceRows.map (planRow destIndex)).map Prod.snd).join)

end Insulation

/-! ## The `identity-ground-improvement-sync` job -/

namespace Ground

def SRC_TANK_COL : ColumnId := 3633417232797572
def SRC_ROW_COL : ColumnId := 537192488980356
def SRC_ORDER_COL : ColumnId := 8699966813589380
def SRC_GROUND_IMPROVEMENTS_COL : ColumnId := 7996279371812740
def SRC_NTP_DATE_COL : ColumnId := 3844523465330564
def SRC_CONTRACT_DAYS_COL : ColumnId := 8348123092701060
def SRC_NTP_COMPLETION_DATE_COL : ColumnId := 1029773698224004

def DEST_TANK_COL : ColumnId := 492931382988676
def DEST_ROW_COL : ColumnId := 5102084126625668
def DEST_NTP_DATE_COL : ColumnId := 1055881336409988
def DEST_CONTRACT_DAYS_COL : ColumnId := 5559480963780484
def DEST_NTP_COMPLETION_DATE_COL : ColumnId := 3307681150095236
def DEST_GROUND_IMPROVEMENTS_COL : ColumnId := 1052563474173828

def ROW_VALUE_PROJECT : String := "Project"
def ROW_VALUE_GROUND_IMPROVEMENTS : String := "Ground Improvements"
def ORDER_VALUE_PROJECT : String := "0000 - Project"

/-- `IDENTITY_FOUNDATION_COLUMN_MAP` of this job (destination columns of
the foundation sheet), in source insertion order. -/
def COLUMN_MAP : List (ColumnId × ColumnId) :=
  [(3633417232797572, 492931382988676),
   (8137016860168068, 4996531010359172),
   (818667465691012, 2744731196673924),
   (5322267093061508, 7248330824044420),
   (2155673605066628, 6122430917201796),
   (6659273232437124, 3870631103516548),
   (4618579651284868, 5665034080046980),
   (5885217046482820, 3413234266361732),
   (6448166999904132, 8374230730887044),
   (3844523465330564, 1055881336409988),
   (8348123092701060, 5559480963780484),
   (1029773698224004, 3307681150095236),
   (5533373325594500, 7811280777465732),
   (4407473418751876, 6790933986889604),
   (8911073046122372, 1161434452676484),
   (1381617419112324, 7916833893732228)]

def src_row_val (r : Row) : String := coerceStrip r.cells SRC_ROW_COL

def src_order_val (r : Row) : String := coerceStrip r.cells SRC_ORDER_COL

def src_tank_val (r : Row) : Option String := flatGet r.cells SRC_TANK_COL

def src_ground_improvements_val (r : Row) : String :=
  coerceStrip r.cells SRC_GROUND_IMPROVEMENTS_COL

def src_ntp_date_val (r : Row) : Option String := flatGet r.cells SRC_NTP_DATE_COL

def src_contract_days_val (r : Row) : Option String :=
  flatGet r.cells SRC_CONTRACT_DAYS_COL

def src_ntp_completion_date_val (r : Row) : Option String :=
  flatGet r.cells SRC_NTP_COMPLETION_DATE_COL

/-- Eligibility-and-tank prefix of the loop body (the conjunction guard). -/
def tank_key (r : Row) : Option String :=
  if src_row_val r ≠ ROW_VALUE_PROJECT ∨ src_order_val r ≠ ORDER_VALUE_PROJECT then none
  else
    match src_tank_val r with
    | none => none
    | some s => if s = "" then none else some (pyStrip s)

/-- Selection of `dest_row`: first candidate whose raw Row value equals the
`"Ground Improvements"` literal. -/
def find_dest (candidates : List Row) : Option Row :=
  candidates.find?
    (fun row => flatGet row.cells DEST_ROW_COL == some ROW_VALUE_GROUND_IMPROVEMENTS)

/-- The insert payload (gate value `"Required"` is written literally into
the destination Ground Improvements column). -/
def insert_cells (r : Row) : List PCell :=
  (COLUMN_MAP.filter (fun p => hasCol r.cells p.1)).map
    (fun p => (⟨p.2, pyValOf (flatGet r.cells p.1)⟩ : PCell))
  ++ [⟨1618831289831300, .pstr ROW_VALUE_GROUND_IMPROVEMENTS⟩,
      ⟨598484499255172, .pstr "0003 - Ground Improvements"⟩,
      ⟨DEST_ROW_COL, .pstr ROW_VALUE_GROUND_IMPROVEMENTS⟩,
      ⟨DEST_GROUND_IMPROVEMENTS_COL, .pstr "Required"⟩]

/-- The update payload: ground-improvements cell if it differs, then the
NTP-date triple if the NTP date differs. -/
def update_cells (r d : Row) : List PCell :=
  (if pyNeSO (src_ground_improvements_val r)
      (flatGet d.cells DEST_GROUND_IMPROVEMENTS_COL) then
    [⟨1052563474173828, .pstr (src_ground_improvements_val r)⟩]
  else []) ++
  (if src_ntp_date_val r != flatGet d.cells DEST_NTP_DATE_COL then
    [⟨DEST_NTP_DATE_COL, pyValOf (src_ntp_date_val r)⟩,
     ⟨DEST_CONTRACT_DAYS_COL, pyValOf (src_contract_days_val r)⟩,
     ⟨DEST_NTP_COMPLETION_DATE_COL, pyValOf (src_ntp_completion_date_val r)⟩]
  else [])

/-- One iteration of the `build_operations` loop. -/
def planRow (destIndex : String → List Row) (r : Row) :
    List InsertOp × List UpdateOp :=
  match tank_key r with
  | none => ([], [])
  | some k =>
    match find_dest (destIndex k) with
    | none =>
      if src_ground_improvements_val r = "Required" then
        ([⟨true, insert_cells r⟩], [])
      else ([], [])
    | some d =>
      if (update_cells r d).isEmpty then ([], [])
      else ([], [⟨d.id, update_cells r d⟩])

/-- The `build_operations` function of this job. -/
def build_operations (sourceRows : List Row) (destIndex : String → List Row) :
    List InsertOp × List UpdateOp :=
  (((sourceRows.map (planRow destIndex)).map Prod.fst).join,
   ((sourceRows.map (planRow destIndex)).map Prod.snd).join)

end Ground

/-- Concrete eligible source row (Project row, tank "7", site name "New")
for the C1 scenario. -/
def c1srow : Row :=
  ⟨1, [⟨537192488980356, some "Project"⟩, ⟨8699966813589380, some "0000 - Project"⟩,
       ⟨3633417232797572, some "7"⟩, ⟨8137016860168068, some "New"⟩]⟩

/-- Concrete matched destination row for C1: same tank, different site
name. -/
def c1drow : Row :=
  ⟨99, [⟨492931382988676, some "7"⟩, ⟨4996531010359172, some "Old"⟩]⟩

/-- Destination index holding only `c1drow`, under tank key "7". -/
def c1idx : String → Option Row := fun k => if k = "7" then some c1drow else none

/-- Concrete source row for C3: its row-type cell is "Phoenix", not
"Project", and its frontend cell is also "Phoenix". -/
def c3row : Row :=
  ⟨2, [⟨537192488980356, some "Phoenix"⟩, ⟨8699966813589380, some "0000 - Project"⟩,
       ⟨5744479558127492, some "Phoenix"⟩, ⟨3633417232797572, some "5"⟩]⟩

/-! ## Helper lemmas -/

theorem chunkedGo_map_length (s : Nat) (hs : 0 < s) :
    ∀ (fuel : Nat) (l : List α), l.length ≤ fuel →
      (chunkedGo s fuel l).map List.length =
        List.replicate (l.length / s) s ++
          (if l.length % s = 0 then [] else [l.length % s]) := by
  intro fuel
  induction fuel with
  | zero =>
    intro l hl
    have : l = [] := List.eq_nil_of_length_eq_zero (Nat.le_zero.mp hl)
    subst this
    simp [chunkedGo]
  | succ n ih =>
    intro l hl
    match l with
    | [] => simp [chunkedGo]
    | a :: t =>
      have hlen : (a :: t).length = t.length + 1 := by simp
      by_cases hle : (a :: t).length ≤ s
      · have htake : (a :: t).take s = a :: t := List.take_of_length_le hle
        have hdrop : (a :: t).drop s = [] := List.drop_eq_nil_of_le hle
        have hfuel0 : ([] : List α).length ≤ n := by simp
        simp only [chunkedGo, htake, hdrop, List.map_cons]
        rw [ih [] hfuel0]
        rcases Nat.lt_or_ge (a :: t).length s with hlt | hge
        · have hdiv : (a :: t).length / s = 0 := Nat.div_eq_of_lt hlt
          have hmod : (a :: t).length % s = (a :: t).length := Nat.mod_eq_of_lt hlt
          simp only [List.length_cons] at hdiv hmod ⊢
          rw [hdiv, hmod]
          simp
        · have heq : (a :: t).length = s := Nat.le_antisymm hle hge
          have hdiv : (a :: t).length / s = 1 := by
            rw [heq]; exact Nat.div_self hs
          have hmod : (a :: t).length % s = 0 := by
            rw [heq]; exact Nat.mod_self s
          simp only [List.length_cons] at hdiv hmod heq ⊢
          rw [hdiv, hmod, heq]
          simp
      · push_neg at hle
        have hsle : s ≤ (a :: t).length := Nat.le_of_lt hle
        have htake : ((a :: t).take s).length = s := by
          rw [List.length_take]; omega
        have hdroplen : ((a :: t).drop s).length = (a :: t).length - s := by
          rw [List.length_drop]
        have hrec : ((a :: t).drop s).length ≤ n := by
          rw [hdroplen]; omega
        simp only [chunkedGo, List.map_cons]
        rw [ih ((a :: t).drop s) hrec, htake, hdroplen]
        have hdiv : (a :: t).length / s = ((a :: t).length - s) / s + 1 := by
          rw [Nat.div_eq ((a :: t).length) s, if_pos ⟨hs, hsle⟩]
        have hmod : (a :: t).length % s = ((a :: t).length - s) % s := by
          rw [Nat.mod_eq ((a :: t).length) s, if_pos ⟨hs, hsle⟩]
        simp only [List.length_cons] at hdiv hmod ⊢
        rw [hdiv, hmod, List.replicate_succ]
        simp

theorem chunked_map_length (s : Nat) (hs : 0 < s) (l : List α) :
    (chunked l s).map List.length =
      List.replicate (l.length / s) s ++
        (if l.length % s = 0 then [] else [l.length % s]) :=
  chunkedGo_map_length s hs l.length l (Nat.le_refl _)

theorem chunked_length_sum (s : Nat) (hs : 0 < s) (l : List α) :
    ((chunked l s).map List.length).sum = l.length := by
  rw [chunked_map_length s hs l]
  by_cases h : l.length % s = 0
  · rw [if_pos h, List.append_nil, List.sum_replicate, smul_eq_mul]
    exact Nat.div_mul_cancel (Nat.dvd_of_mod_eq_zero h)
  · rw [if_neg h, List.sum_append, List.sum_replicate, smul_eq_mul, List.sum_cons,
      List.sum_nil, Nat.add_zero, Nat.mul_comm]
    exact Nat.div_add_mod _ _

theorem chunked_of_short (s : Nat) (l : List α) (h1 : l ≠ []) (h2 : l.length ≤ s) :
    chunked l s = [l] := by
  match l with
  | [] => exact absurd rfl h1
  | a :: t =>
    have htake : (a :: t).take s = a :: t := List.take_of_length_le h2
    have hdrop : (a :: t).drop s = [] := List.drop_eq_nil_of_le h2
    simp only [chunked, List.length_cons, chunkedGo, htake, hdrop]
    match t with
    | [] => simp [chunkedGo]
    | b :: t2 => simp [chunkedGo]

theorem mc_bulk_update_go_dry (resp : Nat → Nat) :
    ∀ (cs : List (List α)) (base : Nat) (acc : BURes),
      mc_bulk_update_go resp true cs base acc =
        .ok ⟨acc.total + (cs.map List.length).sum, acc.callSizes, acc.sleeps⟩ := by
  intro cs
  induction cs with
  | nil => intro base acc; simp [mc_bulk_update_go]
  | cons c rest ih =>
    intro base acc
    simp [mc_bulk_update_go, ih, Nat.add_assoc]

theorem mc_chunk_attempts_ok (resp : Nat → Nat) (base : Nat) (h : resp base < 400) :
    mc_chunk_attempts resp base = .ok (1, []) := by
  have h1 : resp base ≠ 429 := by omega
  have h2 : ¬(400 ≤ resp base ∧ resp base < 600) := by omega
  unfold mc_chunk_attempts
  simp [h1, h2]

theorem mc_bulk_update_go_ok (resp : Nat → Nat) (hresp : ∀ i, resp i < 400) :
    ∀ (cs : List (List α)) (base : Nat) (acc : BURes),
      mc_bulk_update_go resp false cs base acc =
        .ok ⟨acc.total + (cs.map List.length).sum,
             acc.callSizes ++ cs.map List.length, acc.sleeps⟩ := by
  intro cs
  induction cs with
  | nil => intro base acc; simp [mc_bulk_update_go]
  | cons c rest ih =>
    intro base acc
    rw [mc_bulk_update_go, mc_chunk_attempts_ok resp base (hresp base)]
    simp [ih, Nat.add_assoc]

theorem mc_bulk_update_dry_eq (u : List α) (resp : Nat → Nat) :
    mc_bulk_update true u resp = .ok ⟨u.length, [], []⟩ := by
  unfold mc_bulk_update
  rw [mc_bulk_update_go_dry]
  simp [chunked_length_sum 500 (by norm_num) u]

theorem mc_bulk_update_ok_eq (u : List α) (resp : Nat → Nat)
    (hresp : ∀ i, resp i < 400) :
    mc_bulk_update false u resp = .ok ⟨u.length, (chunked u 500).map List.length, []⟩ := by
  unfold mc_bulk_update
  rw [mc_bulk_update_go_ok resp hresp]
  simp [chunked_length_sum 500 (by norm_num) u]

/-! ## Claim theorems -/

/-- C7: for every list of n pending operations and batch limit 500, the
applier issues exactly ceil(n/500) write calls, each chunk of size 500
except a last chunk of size n mod 500 when that is nonzero; in particular
1200 pending operations produce exactly 3 write calls with sizes
[500, 500, 200] (write calls counted on an all-2xx response stream). -/
theorem C7_batch_chunking :
    (∀ l : List Nat, (chunked l 500).length = (l.length + 499) / 500) ∧
    (∀ l : List Nat,
        (chunked l 500).map List.length =
          List.replicate (l.length / 500) 500 ++
            (if l.length % 500 = 0 then [] else [l.length % 500])) ∧
    (∀ (u : List Nat) (resp : Nat → Nat), (∀ i, resp i < 400) →
        mc_bulk_update false u resp =
          .ok ⟨u.length, (chunked u 500).map List.length, []⟩) ∧
    mc_bulk_update false (List.replicate 1200 0) (fun _ => 200) =
      .ok ⟨1200, [500, 500, 200], []⟩ := by
  have hsz := fun l : List Nat => chunked_map_length 500 (by norm_num) l
  refine ⟨?_, hsz, fun u resp h => mc_bulk_update_ok_eq u resp h, ?_⟩
  · intro l
    have h := congrArg List.length (hsz l)
    simp only [List.length_map, List.length_append, List.length_replicate] at h
    by_cases hm : l.length % 500 = 0 <;> simp [hm] at h <;> omega
  · rw [mc_bulk_update_ok_eq _ _ (fun i => by norm_num), hsz]
    simp

/-- C7 witness: three pending operations in one chunk give one write call
of size 3. -/
theorem C7_batch_chunking_witness :
    mc_bulk_update false [7, 8, 9] (fun _ => 204) = .ok ⟨3, [3], []⟩ := by
  rw [C7_batch_chunking.2.2.1 [7, 8, 9] (fun _ => 204) (fun i => by norm_num)]
  decide

/-- C6: with the dry-run flag set, `bulk_update` issues zero PUT calls yet
reports the full pending count, which equals the count a live run on the
same updates attempts to apply; the foundation job's apply phase likewise
issues no write call in dry-run mode and logs the same planned counts in
both modes. -/
theorem C6_dry_run :
    (∀ (u : List UpdateOp) (resp : Nat → Nat),
        mc_bulk_update true u resp = .ok ⟨u.length, [], []⟩) ∧
    (∀ (u : List UpdateOp) (respLive : Nat → Nat), (∀ i, respLive i < 400) →
        ∃ live : BURes, mc_bulk_update false u respLive = .ok live ∧
          live.total = u.length ∧ live.callSizes.sum = u.length) ∧
    (∀ (ins : List InsertOp) (upd : List UpdateOp),
        (Foundation.apply_phase true ins upd).2 = ([], []) ∧
        (Foundation.apply_phase true ins upd).1 = (Foundation.apply_phase false ins upd).1 ∧
        ((Foundation.apply_phase false ins upd).2.1.map List.length).sum = ins.length ∧
        ((Foundation.apply_phase false ins upd).2.2.map List.length).sum = upd.length) := by
  refine ⟨fun u resp => mc_bulk_update_dry_eq u resp, ?_, ?_⟩
  · intro u respLive h
    refine ⟨⟨u.length, (chunked u 500).map List.length, []⟩,
      mc_bulk_update_ok_eq u respLive h, rfl, ?_⟩
    exact chunked_length_sum 500 (by norm_num) u
  · intro ins upd
    refine ⟨rfl, rfl, ?_, ?_⟩
    · by_cases h : ins.isEmpty
      · have : ins = [] := List.isEmpty_iff.mp h
        subst this
        simp [Foundation.apply_phase]
      · simp only [Foundation.apply_phase, Bool.false_eq_true, if_false, if_neg h]
        exact chunked_length_sum 500 (by norm_num) ins
    · by_cases h : upd.isEmpty
      · have : upd = [] := List.isEmpty_iff.mp h
        subst this
        simp [Foundation.apply_phase]
      · simp only [Foundation.apply_phase, Bool.false_eq_true, if_false, if_neg h]
        exact chunked_length_sum 500 (by norm_num) upd

/-- C6 witness: a live run over two pending updates on an all-2xx stream
applies exactly the two rows a dry run reports. -/
theorem C6_dry_run_witness :
    ∃ live : BURes,
      mc_bulk_update false [(⟨5, []⟩ : UpdateOp), ⟨6, []⟩] (fun _ => 200) = .ok live ∧
      live.total = 2 ∧ live.callSizes.sum = 2 :=
  C6_dry_run.2.1 [⟨5, []⟩, ⟨6, []⟩] (fun _ => 200) (fun i => by norm_num)

/-- C5 counterexample: a chunk whose two attempts both return HTTP 429 (a
non-2xx status) is nevertheless added to the returned success total by
`project-missing-check.bulk_update` — the run reports 1 applied row after
two failed PUT calls and two 3-second sleeps, refuting "a chunk whose
final attempt failed is never counted in the success total". -/
theorem C5_counterexample :
    mc_bulk_update false [(0 : Nat)] (fun _ => 429) = .ok ⟨1, [1, 1], [3, 3]⟩ := by
  decide

/-- C5 (amended): on a 429 response the chunk is retried exactly once after
one 3-second sleep (both jobs); a non-429 4xx/5xx makes
`project-missing-check.bulk_update` raise, while `status-update.bulk_update`
logs the failure, breaks, and still counts the chunk; and a chunk whose two
attempts were both rate-limited is counted in the success total by both
jobs. -/
theorem C5_retry_behavior :
    (∀ (resp : Nat → Nat) (base : Nat),
        resp base = 429 → ¬(400 ≤ resp (base + 1) ∧ resp (base + 1) < 600) →
        mc_chunk_attempts resp base = .ok (2, [3])) ∧
    (∀ (resp : Nat → Nat) (base : Nat),
        resp base = 429 → resp (base + 1) ≠ 429 →
        su_chunk_attempts resp base = (2, [3])) ∧
    (∀ (resp : Nat → Nat) (base : Nat),
        resp base ≠ 429 → 400 ≤ resp base → resp base < 600 →
        mc_chunk_attempts resp base = .error (resp base)) ∧
    (∀ (u : List UpdateOp) (resp : Nat → Nat),
        u ≠ [] → u.length ≤ 500 → resp 0 = 429 → resp 1 = 429 →
        mc_bulk_update false u resp = .ok ⟨u.length, [u.length, u.length], [3, 3]⟩) ∧
    (∀ (u : List UpdateOp) (resp : Nat → Nat),
        u ≠ [] → u.length ≤ 500 → resp 0 ≠ 429 → 400 ≤ resp 0 → resp 0 < 600 →
        mc_bulk_update false u resp = .error (resp 0)) ∧
    (∀ (u : List UpdateOp) (resp : Nat → Nat),
        u ≠ [] → u.length ≤ 500 → resp 0 ≠ 429 →
        su_bulk_update false u resp = ⟨u.length, [u.length], []⟩) := by
  refine ⟨?_, ?_, ?_, ?_, ?_, ?_⟩
  · intro resp base h1 h2
    have h3 : resp (base + 1) ≠ 429 := by
      intro hc
      exact h2 (by rw [hc]; omega)
    simp [mc_chunk_attempts, h1, h2, h3]
  · intro resp base h1 h2
    simp [su_chunk_attempts, h1, h2]
  · intro resp base h1 h2 h3
    simp [mc_chunk_attempts, h1, h2, h3]
  · intro u resp h1 h2 h3 h4
    unfold mc_bulk_update
    rw [chunked_of_short 500 u h1 h2]
    simp [mc_bulk_update_go, mc_chunk_attempts, h3, h4]
  · intro u resp h1 h2 h3 h4 h5
    unfold mc_bulk_update
    rw [chunked_of_short 500 u h1 h2]
    simp [mc_bulk_update_go, mc_chunk_attempts, h3, h4, h5]
  · intro u resp h1 h2 h3
    unfold su_bulk_update
    rw [chunked_of_short 500 u h1 h2]
    simp [su_bulk_update_go, su_chunk_attempts, h3]

/-- C5 witness: a single one-row chunk rate-limited on both attempts is
counted as applied. -/
theorem C5_retry_behavior_witness :
    mc_bulk_update false [(⟨1, []⟩ : UpdateOp)] (fun _ => 429) = .ok ⟨1, [1, 1], [3, 3]⟩ := by
  have h := C5_retry_behavior.2.2.2.1 [⟨1, []⟩] (fun _ => 429)
    (by decide) (by decide) rfl rfl
  simpa using h

theorem except_bind_ok {ε α β : Type} (a : α) (f : α → Except ε β) :
    ((Except.ok a : Except ε α) >>= f) = f a := rfl

theorem except_pure_eq {ε α : Type} (a : α) : (pure a : Except ε α) = .ok a := rfl

theorem pyStrip_empty : pyStrip "" = "" := rfl

theorem pipe_key_ne_empty (a b c : String) : a ++ "|" ++ b ++ "|" ++ c ≠ "" := by
  intro h
  have hlen := congrArg String.length h
  have hone : ("|" : String).length = 1 := rfl
  have hzero : ("" : String).length = 0 := rfl
  simp only [String.length_append, hone, hzero] at hlen
  omega

/-- C8: for every tank-number cell value, numeric key normalization parses
the value as a Python float, truncates it toward zero and renders the
integer as a decimal string (so "010" and "10.0" both normalize to "10");
a value whose parse or truncation raises ValueError falls back to the
trimmed lower-cased string, and an empty or missing value gives "". -/
theorem C8_normalize_tank_spec :
    normalize_tank (some "010") = .ok "10" ∧
    normalize_tank (some "10.0") = .ok "10" ∧
    normalize_tank none = .ok "" ∧
    (∀ s : String, pyStrip s = "" → normalize_tank (some s) = .ok "") ∧
    (∀ s : String, pyStrip s ≠ "" → pyFloat (pyStrip s) = none →
        normalize_tank (some s) = .ok (pyLower (pyStrip s))) ∧
    (∀ (s : String) (q : PRat), pyStrip s ≠ "" →
        pyFloat (pyStrip s) = some (.finite q) →
        normalize_tank (some s) = .ok (toString (ratTruncToInt q))) := by
  refine ⟨by decide, by decide, by decide, ?_, ?_, ?_⟩
  · intro s h
    simp [normalize_tank, h]
  · intro s h1 h2
    simp [normalize_tank, h1, h2]
  · intro s q h1 h2
    simp [normalize_tank, h1, h2]

/-- C8 witness: " Foo7 " is not parseable as a number and normalizes to its
trimmed lower-cased form. -/
theorem C8_normalize_tank_spec_witness :
    pyStrip " Foo7 " ≠ "" ∧ pyFloat (pyStrip " Foo7 ") = none ∧
    normalize_tank (some " Foo7 ") = .ok (pyLower (pyStrip " Foo7 ")) :=
  ⟨by decide, by decide,
    C8_normalize_tank_spec.2.2.2.2.1 " Foo7 " (by decide) (by decide)⟩

/-- C10 (code bug): key extraction is not total.  A tank cell "inf" parses
as an infinite float, `int()` raises OverflowError, and the source's
`except ValueError` does not catch it, so `normalize_tank` (and with it
`extract_key`) propagates an exception instead of returning a string; a
finite-looking literal such as "1e400" overflows to infinity and raises
too. -/
theorem C10_normalize_tank_overflow :
    normalize_tank (some "inf") = .error .overflowError ∧
    extract_key ⟨1, [⟨10, some "inf"⟩, ⟨11, some "Waco"⟩, ⟨12, some "TX"⟩]⟩ 10 11 12 =
      .error .overflowError ∧
    normalize_tank (some "1e400") = .error .overflowError :=
  ⟨by decide, by decide, by decide⟩

/-- C2 counterexample: in `status-update`, a destination row whose tank
component is empty after normalization (the claimed Invalid condition) but
whose city, state and status cells are populated still becomes an update
candidate — the job rebuilds the key without the empty-component guard and
emits a status-clearing update for it. -/
theorem C2_counterexample :
    StatusUpdate.su_tank ⟨1, 2, 3, 4⟩
        ⟨7, [⟨2, some "x"⟩, ⟨3, some "y"⟩, ⟨4, some "Done"⟩]⟩ = .ok "" ∧
    StatusUpdate.su_plan_row [] ⟨1, 2, 3, 4⟩
        ⟨7, [⟨2, some "x"⟩, ⟨3, some "y"⟩, ⟨4, some "Done"⟩]⟩ =
      .ok (some ⟨7, [⟨4, .pstr ""⟩]⟩) :=
  ⟨by decide, by decide⟩

theorem except_bind_error {ε α β : Type} (e : ε) (f : α → Except ε β) :
    ((Except.error e : Except ε α) >>= f) = .error e := rfl

theorem mc_src_step_ne_empty (acc : List String) (r : Row) (out : List String)
    (h : MissingCheck.mc_src_step acc r = .ok out) (hacc : "" ∉ acc) : "" ∉ out := by
  unfold MissingCheck.mc_src_step at h
  cases he : extract_key r MissingCheck.SRC_COL_TANK MissingCheck.SRC_COL_CITY
      MissingCheck.SRC_COL_STATE with
  | error e =>
    rw [he, except_bind_error] at h
    cases h
  | ok k =>
    rw [he, except_bind_ok] at h
    by_cases hk : k = ""
    · rw [if_pos hk, except_pure_eq] at h
      cases h
      exact hacc
    · rw [if_neg hk, except_pure_eq] at h
      cases h
      intro hmem
      rcases List.mem_append.mp hmem with hmem | hmem
      · exact hacc hmem
      · simp at hmem
        exact hk hmem.symm

theorem mc_src_keys_go_ne_empty :
    ∀ (rows : List Row) (acc ks : List String),
      List.foldlM MissingCheck.mc_src_step acc rows = .ok ks → "" ∉ acc → "" ∉ ks := by
  intro rows
  induction rows with
  | nil =>
    intro acc ks h hacc
    rw [List.foldlM_nil] at h
    rw [except_pure_eq] at h
    cases h
    exact hacc
  | cons r rest ih =>
    intro acc ks h hacc
    rw [List.foldlM_cons] at h
    cases hstep : MissingCheck.mc_src_step acc r with
    | error e =>
      rw [hstep, except_bind_error] at h
      cases h
    | ok acc2 =>
      rw [hstep, except_bind_ok] at h
      exact ih acc2 ks h (mc_src_step_ne_empty acc r acc2 hstep hacc)

theorem assocSet_keys_ne_empty (m : List (String × Option String)) (k : String)
    (v : Option String) (hm : ∀ p ∈ m, p.1 ≠ "") (hk : k ≠ "") :
    ∀ p ∈ StatusUpdate.assocSet m k v, p.1 ≠ "" := by
  intro p hp
  unfold StatusUpdate.assocSet at hp
  by_cases hf : (m.find? (fun q => q.1 == k)).isSome
  · rw [if_pos hf] at hp
    obtain ⟨q, hq, hpq⟩ := List.mem_map.mp hp
    by_cases hqk : q.1 == k
    · rw [if_pos hqk] at hpq
      rw [← hpq]
      exact hk
    · rw [if_neg hqk] at hpq
      rw [← hpq]
      exact hm q hq
  · rw [if_neg hf] at hp
    rcases List.mem_append.mp hp with h | h
    · exact hm p h
    · simp at h
      rw [h]
      exact hk

theorem su_src_step_ne_empty (acc : List (String × Option String)) (r : Row)
    (out : List (String × Option String)) (h : StatusUpdate.su_src_step acc r = .ok out)
    (hacc : ∀ p ∈ acc, p.1 ≠ "") : ∀ p ∈ out, p.1 ≠ "" := by
  unfold StatusUpdate.su_src_step at h
  cases he : extract_key r StatusUpdate.SRC_COL_TANK StatusUpdate.SRC_COL_CITY
      StatusUpdate.SRC_COL_STATE with
  | error e =>
    rw [he, except_bind_error] at h
    cases h
  | ok k =>
    rw [he, except_bind_ok] at h
    by_cases hk : k = ""
    · rw [if_pos hk, except_pure_eq] at h
      cases h
      exact hacc
    · rw [if_neg hk, except_pure_eq] at h
      cases h
      exact assocSet_keys_ne_empty acc k _ hacc hk

theorem su_src_map_go_ne_empty :
    ∀ (rows : List Row) (acc m : List (String × Option String)),
      List.foldlM StatusUpdate.su_src_step acc rows = .ok m →
      (∀ p ∈ acc, p.1 ≠ "") → ∀ p ∈ m, p.1 ≠ "" := by
  intro rows
  induction rows with
  | nil =>
    intro acc m h hacc
    rw [List.foldlM_nil, except_pure_eq] at h
    cases h
    exact hacc
  | cons r rest ih =>
    intro acc m h hacc
    rw [List.foldlM_cons] at h
    cases hstep : StatusUpdate.su_src_step acc r with
    | error e =>
      rw [hstep, except_bind_error] at h
      cases h
    | ok acc2 =>
      rw [hstep, except_bind_ok] at h
      exact ih acc2 m h (su_src_step_ne_empty acc r acc2 hstep hacc)

/-- C2 (amended): wherever `extract_key` is used, a row with any empty key
component yields the Invalid sentinel `""` and is excluded — it contributes
no source key (`project-missing-check` and `status-update` source passes)
and no update (`project-missing-check` destination pass); in the
`status-update` destination pass, however, the key is rebuilt without the
per-component guard, and only rows with all three components empty (or with
both statuses blank) are excluded, so a row with just one empty component
can still become an update candidate (see the counterexample). -/
theorem C2_invalid_key_exclusion :
    (∀ (row : Row) (tc cc sc : ColumnId) (tk : String),
        normalize_tank (flatGet row.cells tc) = .ok tk →
        (tk = "" ∨ pyLower (pyStrip (pyStrOr (cellsGet row.cells cc))) = "" ∨
          pyLower (pyStrip (pyStrOr (cellsGet row.cells sc))) = "") →
        extract_key row tc cc sc = .ok "") ∧
    (∀ (rows : List Row) (ks : List String),
        MissingCheck.mc_src_keys rows = .ok ks → "" ∉ ks) ∧
    (∀ (srcKeys : List String) (cols : MissingCheck.MCCols) (row : Row),
        extract_key row cols.tank cols.city cols.state = .ok "" →
        MissingCheck.mc_plan_row srcKeys cols row = .ok []) ∧
    (∀ (rows : List Row) (m : List (String × Option String)),
        StatusUpdate.su_src_map rows = .ok m → ∀ p ∈ m, p.1 ≠ "") ∧
    (∀ (srcMap : List (String × Option String)) (cols : StatusUpdate.SUCols)
        (row : Row) (tk : String),
        StatusUpdate.su_tank cols row = .ok tk →
        tk = "" → StatusUpdate.su_city cols row = "" →
        StatusUpdate.su_state cols row = "" →
        StatusUpdate.su_plan_row srcMap cols row = .ok none) := by
  refine ⟨?_, ?_, ?_, ?_, ?_⟩
  · intro row tc cc sc tk h1 h2
    simp only [extract_key, h1, except_bind_ok]
    rcases h2 with h | h | h <;> simp [h, except_pure_eq]
  · intro rows ks h
    exact mc_src_keys_go_ne_empty rows [] ks h (by simp)
  · intro srcKeys cols row h
    simp only [MissingCheck.mc_plan_row, h, except_bind_ok]
    simp [except_pure_eq]
  · intro rows m h
    exact su_src_map_go_ne_empty rows [] m h (by simp)
  · intro srcMap cols row tk h1 h2 h3 h4
    simp only [StatusUpdate.su_plan_row, h1, except_bind_ok]
    by_cases hs : pyStrip (pyStrOr (StatusUpdate.assocGet srcMap
        (tk ++ "|" ++ pyLower (StatusUpdate.su_city cols row) ++ "|" ++
          pyLower (StatusUpdate.su_state cols row)))) = ""
    · by_cases hd : StatusUpdate.su_dest_status cols row = ""
      · simp [hs, hd, h2, h3, h4, except_pure_eq]
      · simp [hs, hd, h2, h3, h4, except_pure_eq]
    · simp [hs, h2, h3, h4, except_pure_eq]

/-- C2 witness: a row with a populated tank but empty city never produces a
missing-project update. -/
theorem C2_invalid_key_exclusion_witness :
    MissingCheck.mc_plan_row ["1|a|b"] ⟨1, 2, 3, 4⟩
      ⟨5, [⟨1, some "7"⟩, ⟨3, some "TX"⟩]⟩ = .ok [] :=
  C2_invalid_key_exclusion.2.2.1 ["1|a|b"] ⟨1, 2, 3, 4⟩
    ⟨5, [⟨1, some "7"⟩, ⟨3, some "TX"⟩]⟩ (by decide)

/-- C9: in `status-update`, for every destination row whose composite key
has no entry in the source status map and whose own status cell is
non-blank, an Update overwriting the destination status cell with the empty
string is emitted (unless tank, city and state are all empty, which is
skipped); an unmatched row whose own status is also blank is skipped. -/
theorem C9_unmatched_status_cleared :
    ∀ (srcMap : List (String × Option String)) (cols : StatusUpdate.SUCols)
      (row : Row) (tk : String),
      StatusUpdate.su_tank cols row = .ok tk →
      StatusUpdate.assocGet srcMap
        (tk ++ "|" ++ pyLower (StatusUpdate.su_city cols row) ++ "|" ++
          pyLower (StatusUpdate.su_state cols row)) = none →
      (StatusUpdate.su_dest_status cols row ≠ "" →
        ¬(tk = "" ∧ StatusUpdate.su_city cols row = "" ∧
            StatusUpdate.su_state cols row = "") →
        StatusUpdate.su_plan_row srcMap cols row =
          .ok (some ⟨row.id, [⟨cols.status, .pstr ""⟩]⟩)) ∧
      (StatusUpdate.su_dest_status cols row = "" →
        StatusUpdate.su_plan_row srcMap cols row = .ok none) := by
  intro srcMap cols row tk h1 h2
  have hkey := pipe_key_ne_empty tk (pyLower (StatusUpdate.su_city cols row))
    (pyLower (StatusUpdate.su_state cols row))
  constructor
  · intro h3 h4
    simp only [StatusUpdate.su_plan_row, h1, except_bind_ok, h2]
    simp [pyStrOr, pyStrip_empty, h3, Ne.symm h3, h4, hkey, except_pure_eq]
  · intro h3
    simp only [StatusUpdate.su_plan_row, h1, except_bind_ok, h2]
    simp [pyStrOr, pyStrip_empty, h3, except_pure_eq]

/-- C9 witness: a populated destination row with no source entry has its
non-blank status overwritten with the empty string. -/
theorem C9_unmatched_status_cleared_witness :
    StatusUpdate.su_plan_row [] ⟨1, 2, 3, 4⟩
      ⟨9, [⟨1, some "7"⟩, ⟨2, some "Waco"⟩, ⟨3, some "TX"⟩, ⟨4, some "In Progress"⟩]⟩ =
      .ok (some ⟨9, [⟨4, .pstr ""⟩]⟩) :=
  (C9_unmatched_status_cleared [] ⟨1, 2, 3, 4⟩
      ⟨9, [⟨1, some "7"⟩, ⟨2, some "Waco"⟩, ⟨3, some "TX"⟩, ⟨4, some "In Progress"⟩]⟩
      "7" (by decide) (by decide)).1 (by decide) (by decide)

/-- C1 counterexample: exactly one mapped column pair (the site name)
differs after normalization — the tank pair is equal — yet the emitted
Update's payload carries the tank cell as well: the payload is the full
mapped-cell rewrite plus the forced Row literal, not only the changed
cells. -/
theorem C1_counterexample :
    (Foundation.build_operations [c1srow] c1idx).2 =
      [⟨99, [⟨492931382988676, .pstr "7"⟩, ⟨4996531010359172, .pstr "New"⟩,
             ⟨5102084126625668, .pstr "Front-End - Site Work"⟩]⟩] ∧
    Foundation.normalize (flatGet c1srow.cells Foundation.SRC_TANK_COL) =
      Foundation.normalize (flatGet c1drow.cells Foundation.DEST_TANK_COL) ∧
    Foundation.find_column_diffs c1srow.cells c1drow.cells =
      [(8137016860168068, 4996531010359172)] :=
  ⟨by decide, by decide, by decide⟩

/-- C1 (amended): in the foundation job an Update is emitted iff at least
one mapped column pair differs after normalization, tagged with the matched
destination row's identifier, but its payload is the full mapped-cell
rewrite (`mapped_cells`: every mapped column present in the source row plus
the forced Row literal); in the insulation job an Update is emitted iff the
insulation value or the raw NTP-date value differs from the destination
(mapped columns other than these are never compared), and its payload is
the changed insulation cell and/or the NTP-date/contract-days/completion
triple. -/
theorem C1_update_semantics :
    (∀ (idx : String → Option Row) (r d : Row) (k : String),
        Foundation.tank_key r = some k → idx k = some d →
        (((Foundation.planRow idx r).2 ≠ []) ↔
          ∃ p ∈ Foundation.COLUMN_MAP,
            Foundation.normalize (flatGet r.cells p.1) ≠
              Foundation.normalize (flatGet d.cells p.2)) ∧
        ∀ u ∈ (Foundation.planRow idx r).2,
          u.id = d.id ∧ u.cells = Foundation.mapped_cells r) ∧
    (∀ (idx : String → List Row) (r d : Row) (k : String),
        Insulation.tank_key r = some k → Insulation.find_dest (idx k) = some d →
        (((Insulation.planRow idx r).2 ≠ []) ↔
          (pyNeSO (Insulation.src_insulation_val r)
              (flatGet d.cells Insulation.DEST_INSULATION_COL) = true ∨
            Insulation.src_ntp_date_val r ≠
              flatGet d.cells Insulation.DEST_NTP_DATE_COL)) ∧
        ∀ u ∈ (Insulation.planRow idx r).2,
          u.id = d.id ∧ u.cells = Insulation.update_cells r d) := by
  constructor
  · intro idx r d k h1 h2
    by_cases hd : Foundation.find_column_diffs r.cells d.cells = []
    · have hall : ∀ p ∈ Foundation.COLUMN_MAP,
          Foundation.normalize (flatGet r.cells p.1) =
            Foundation.normalize (flatGet d.cells p.2) := by
        intro p hp
        have := List.filter_eq_nil_iff.mp hd p hp
        simpa [bne_iff_ne] using this
      constructor
      · simp only [Foundation.planRow, h1, h2, hd, List.isEmpty_nil, if_true]
        constructor
        · intro h
          exact absurd rfl h
        · rintro ⟨p, hp, hne⟩
          exact absurd (hall p hp) hne
      · intro u hu
        simp only [Foundation.planRow, h1, h2, hd, List.isEmpty_nil, if_true] at hu
        simp at hu
    · have hex : ∃ p ∈ Foundation.COLUMN_MAP,
          Foundation.normalize (flatGet r.cells p.1) ≠
            Foundation.normalize (flatGet d.cells p.2) := by
        by_contra hno
        push_neg at hno
        apply hd
        apply List.filter_eq_nil_iff.mpr
        intro p hp
        simp [bne_iff_ne]
        exact hno p hp
      have hie : (Foundation.find_column_diffs r.cells d.cells).isEmpty = false := by
        rw [List.isEmpty_eq_false_iff_exists_mem]
        rcases List.exists_mem_of_ne_nil _ hd with ⟨p, hp⟩
        exact ⟨p, hp⟩
      constructor
      · simp only [Foundation.planRow, h1, h2, hie, Bool.false_eq_true, if_false]
        simp [hex]
      · intro u hu
        simp only [Foundation.planRow, h1, h2, hie, Bool.false_eq_true, if_false] at hu
        simp at hu
        simp [hu]
  · intro idx r d k h1 h2
    by_cases ha : pyNeSO (Insulation.src_insulation_val r)
        (flatGet d.cells Insulation.DEST_INSULATION_COL) = true
    · have hne : Insulation.update_cells r d ≠ [] := by
        simp [Insulation.update_cells, ha]
      have hie : (Insulation.update_cells r d).isEmpty = false := by
        rw [List.isEmpty_eq_false_iff_exists_mem]
        rcases List.exists_mem_of_ne_nil _ hne with ⟨p, hp⟩
        exact ⟨p, hp⟩
      constructor
      · simp only [Insulation.planRow, h1, h2, hie, Bool.false_eq_true, if_false]
        simp [ha]
      · intro u hu
        simp only [Insulation.planRow, h1, h2, hie, Bool.false_eq_true, if_false] at hu
        simp at hu
        simp [hu]
    · by_cases hb : (Insulation.src_ntp_date_val r !=
          flatGet d.cells Insulation.DEST_NTP_DATE_COL) = true
      · have hne : Insulation.update_cells r d ≠ [] := by
          simp [Insulation.update_cells, ha, hb]
        have hie : (Insulation.update_cells r d).isEmpty = false := by
          rw [List.isEmpty_eq_false_iff_exists_mem]
          rcases List.exists_mem_of_ne_nil _ hne with ⟨p, hp⟩
          exact ⟨p, hp⟩
        have hbne : Insulation.src_ntp_date_val r ≠
            flatGet d.cells Insulation.DEST_NTP_DATE_COL := bne_iff_ne.mp hb
        constructor
        · simp only [Insulation.planRow, h1, h2, hie, Bool.false_eq_true, if_false]
          simp [hbne]
        · intro u hu
          simp only [Insulation.planRow, h1, h2, hie, Bool.false_eq_true, if_false] at hu
          simp at hu
          simp [hu]
      · have heq : Insulation.update_cells r d = [] := by
          simp [Insulation.update_cells, ha, hb]
        have hbeq : Insulation.src_ntp_date_val r =
            flatGet d.cells Insulation.DEST_NTP_DATE_COL := by
          by_contra hc
          exact hb (bne_iff_ne.mpr hc)
        constructor
        · simp only [Insulation.planRow, h1, h2, heq, List.isEmpty_nil, if_true]
          constructor
          · intro h
            exact absurd rfl h
          · rintro (h | h)
            · exact absurd h ha
            · exact absurd hbeq h
        · intro u hu
          simp only [Insulation.planRow, h1, h2, heq, List.isEmpty_nil, if_true] at hu
          simp at hu

/-- C1 witness: the concrete scenario of the counterexample satisfies the
amended characterization. -/
theorem C1_update_semantics_witness :
    (((Foundation.planRow c1idx c1srow).2 ≠ []) ↔
      ∃ p ∈ Foundation.COLUMN_MAP,
        Foundation.normalize (flatGet c1srow.cells p.1) ≠
          Foundation.normalize (flatGet c1drow.cells p.2)) ∧
    ∀ u ∈ (Foundation.planRow c1idx c1srow).2,
      u.id = c1drow.id ∧ u.cells = Foundation.mapped_cells c1srow :=
  C1_update_semantics.1 c1idx c1srow c1drow "7" (by decide) (by decide)

/-- C3 (code bug): the foundation job's eligibility check is the Python
chained comparison `src_frontend_val != src_row_val != ROW_VALUE_PROJECT`,
which passes any row whose frontend value equals its row-type value — the
row `c3row` has row-type "Phoenix" (≠ "Project") yet produces an Insert,
contradicting the in-code comment "Must be a Project row" and the claimed
conjunction predicate (which the insulation job does implement: it skips
the same row). -/
theorem C3_chained_comparison_bug :
    Foundation.src_row_val c3row = "Phoenix" ∧
    Foundation.src_row_val c3row ≠ Foundation.ROW_VALUE_PROJECT ∧
    (Foundation.build_operations [c3row] (fun _ => none)).1 ≠ [] ∧
    Insulation.tank_key c3row = none :=
  ⟨by decide, by decide, by decide, by decide⟩

/-- C4: for every source row with no matching destination row, an Insert is
produced only if the job's gate field is in the accepted literal set
("Phoenix"/"Subcontractor" for the foundation and insulation jobs,
"Required" for the ground-improvement job); any other gate value produces
no Insert. -/
theorem C4_insertion_gate :
    (∀ (idx : String → Option Row) (r : Row) (k : String),
        Foundation.tank_key r = some k → idx k = none →
        Foundation.src_frontend_val r ≠ "Phoenix" →
        Foundation.src_frontend_val r ≠ "Subcontractor" →
        (Foundation.planRow idx r).1 = []) ∧
    (∀ (idx : String → List Row) (r : Row) (k : String),
        Insulation.tank_key r = some k → Insulation.find_dest (idx k) = none →
        Insulation.src_insulation_val r ≠ "Phoenix" →
        Insulation.src_insulation_val r ≠ "Subcontractor" →
        (Insulation.planRow idx r).1 = []) ∧
    (∀ (idx : String → List Row) (r : Row) (k : String),
        Ground.tank_key r = some k → Ground.find_dest (idx k) = none →
        Ground.src_ground_improvements_val r ≠ "Required" →
        (Ground.planRow idx r).1 = []) := by
  refine ⟨?_, ?_, ?_⟩
  · intro idx r k h1 h2 h3 h4
    simp [Foundation.planRow, h1, h2, h3, h4]
  · intro idx r k h1 h2 h3 h4
    simp [Insulation.planRow, h1, h2, h3, h4]
  · intro idx r k h1 h2 h3
    simp [Ground.planRow, h1, h2, h3]

/-- C4 witness: an unmatched Project row whose frontend gate reads "Other"
produces no Insert in the foundation job. -/
theorem C4_insertion_gate_witness :
    (Foundation.planRow (fun _ => none)
      ⟨3, [⟨537192488980356, some "Project"⟩, ⟨8699966813589380, some "0000 - Project"⟩,
           ⟨5744479558127492, some "Other"⟩, ⟨3633417232797572, some "5"⟩]⟩).1 = [] :=
  C4_insertion_gate.1 (fun _ => none)
    ⟨3, [⟨537192488980356, some "Project"⟩, ⟨8699966813589380, some "0000 - Project"⟩,
         ⟨5744479558127492, some "Other"⟩, ⟨3633417232797572, some "5"⟩]⟩
    "5" (by decide) rfl (by decide) (by decide)
